import Mathlib

/-!
Shallow embedding of the investment-scoring and cash-flow-affordability core of
the Realestate repository.

JavaScript numbers are modelled as rationals (ℚ).  `Math.round` is
`fun x => ⌊x + 1/2⌋` (JS rounds half toward +∞) and `Math.abs` is `jsAbs`.
The scorer comes from `src/utils/scoreCalculator.ts` (src/unnamed/part_007);
the affordability solver from the `CashFlowCalculator` component
(src/unnamed/part_002).  Numeric values stored under string keys in the HUD
`basicdata` payloads are modelled as rationals, matching the declared
TypeScript type `basicdata : { [key: string]: number }`.
-/

namespace RealEstate

/-- JavaScript `Math.round`: round half toward positive infinity. -/
def jsRound (x : ℚ) : ℚ := ((⌊x + 1/2⌋ : ℤ) : ℚ)

/-- JavaScript `Math.abs` on rationals. -/
def jsAbs (x : ℚ) : ℚ := if x < 0 then -x else x

/-- Crime statistics input: rates per 100k population (`CrimeData` in
`src/types/index.ts`; only the two rate fields are read by the scorer). -/
structure CrimeData where
  violent_crime_rate : ℚ
  property_crime_rate : ℚ

/-- One ZIP entry of a Small Area FMR `basicdata` array: its `zip_code`
and the value stored under the key named Three-Bedroom (absent ⇒ `none`). -/
structure ZipBasicEntry where
  zip_code : String
  threeBedroom : Option ℚ

/-- The `fmrData.data.basicdata` payload: either a Small Area FMR array of
ZIP entries or a regular FMR object with a direct Three-Bedroom value. -/
inductive BasicData where
  | smallArea (entries : List ZipBasicEntry)
  | regular (threeBedroom : Option ℚ)

/-- The `data` field of `FMRData`: the optional `fmr_3` rent and the
optional `basicdata` payload (other fields are not read by the scorer). -/
structure FMRInner where
  fmr_3 : Option ℚ
  basicdata : Option BasicData

/-- `FMRData` from `src/types/index.ts`, restricted to the fields the
scorer reads. -/
structure FMRData where
  zip_code : String
  data : FMRInner

/-- Letter grade of an investment score. -/
inductive Grade where
  | A | B | C | D | F

/-- Investment recommendation label. -/
inductive Recommendation where
  | Excellent | Good | Fair | Avoid

/-- `estimatedPriceRange` record of `InvestmentMetrics`. -/
structure PriceRange where
  low : ℚ
  high : ℚ
  median : ℚ

/-- The `breakdown` record of `InvestmentMetrics`. -/
structure ScoreBreakdown where
  fmrScore : ℚ
  crimeScore : ℚ
  densityScore : ℚ
  fmrWeight : ℚ
  crimeWeight : ℚ
  densityWeight : ℚ

/-- Result record of the scorer (`InvestmentMetrics` in `src/types/index.ts`). -/
structure InvestmentMetrics where
  score : ℚ
  grade : Grade
  recommendation : Recommendation
  estimatedPriceRange : PriceRange
  averageHomeCost : ℚ
  requiredRentFor2Percent : ℚ
  rentToPriceRatio : ℚ
  breakdown : ScoreBreakdown

/-- The 3BR-rent extraction at the top of `calculateInvestmentScore`:
`fmrData.data.fmr_3 || 0`, then, if still 0 and `basicdata` is present,
the Small Area FMR array lookup by `zip_code` or the regular-FMR direct
read, each guarded by JS truthiness of the found value. -/
def resolveThreeBedroomRent (fmrData : FMRData) : ℚ :=
  let rent0 := (fmrData.data.fmr_3).getD 0
  if rent0 = 0 then
    match fmrData.data.basicdata with
    | none => 0
    | some (BasicData.smallArea entries) =>
        match entries.find? (fun item => item.zip_code = fmrData.zip_code) with
        | some zipData =>
            match zipData.threeBedroom with
            | some v => if v ≠ 0 then v else 0
            | none => 0
        | none => 0
    | some (BasicData.regular tb) =>
        match tb with
        | some v => if v ≠ 0 then v else 0
        | none => 0
  else rent0

/-- `calculateFMRScore`: rent-to-price-ratio sub-score with fixed breakpoints. -/
def calculateFMRScore (monthlyRent : ℚ) (homePrice : ℚ) : ℚ :=
  if homePrice = 0 then 50
  else
    let monthlyRatio := monthlyRent / homePrice
    if monthlyRatio ≥ 0.02 then 100
    else if monthlyRatio ≥ 0.015 then 75
    else if monthlyRatio ≥ 0.01 then 50
    else 25

/-- `crimeRateTo10Scale`: convert a crime rate to a 1–10 danger scale by
ratio to a national average. -/
def crimeRateTo10Scale (rate : ℚ) (nationalAverage : ℚ) : ℚ :=
  let ratio := rate / nationalAverage
  if ratio ≤ 0.3 then 1
  else if ratio ≤ 0.5 then 2
  else if ratio ≤ 0.7 then 3
  else if ratio ≤ 0.9 then 4
  else if ratio ≤ 1.1 then 5
  else if ratio ≤ 1.3 then 6
  else if ratio ≤ 1.5 then 7
  else if ratio ≤ 1.8 then 8
  else if ratio ≤ 2.2 then 9
  else 10

/-- Proof helper: evaluate an ordered list of (threshold, value) pairs as
a nested if-chain, with a default for the final else. -/
def stepChain : List (ℚ × ℚ) → ℚ → ℚ → ℚ
  | [], _, dflt => dflt
  | (t, v) :: rest, x, dflt => if x ≤ t then v else stepChain rest x dflt

/-- The (threshold, scale) pairs of `crimeRateTo10Scale`. -/
def crimeThresholds : List (ℚ × ℚ) :=
  [(0.3, 1), (0.5, 2), (0.7, 3), (0.9, 4), (1.1, 5), (1.3, 6), (1.5, 7), (1.8, 8), (2.2, 9)]

/-- `calculateCrimeScore`: 0–100 safety score from the two crime rates
(baselines 380 violent, 1958 property per 100k), defaulting to 50 when
crime data is absent. -/
def calculateCrimeScore (crimeData : Option CrimeData) : ℚ :=
  match crimeData with
  | none => 50
  | some cd =>
      let violentScale := crimeRateTo10Scale cd.violent_crime_rate 380
      let propertyScale := crimeRateTo10Scale cd.property_crime_rate 1958
      let overallScale := jsRound (violentScale * 0.6 + propertyScale * 0.4)
      jsRound ((11 - overallScale) * 10)

/-- `calculateDensityScore`: population-density sub-score with fixed
thresholds. -/
def calculateDensityScore (populationDensity : ℚ) : ℚ :=
  if populationDensity ≥ 5000 then 100
  else if populationDensity ≥ 2000 then 80
  else if populationDensity ≥ 1000 then 60
  else if populationDensity ≥ 500 then 40
  else 20

/-- `calculateCrimeWeight`: severity-inverse weight of the crime sub-score. -/
def calculateCrimeWeight (crimeScore : ℚ) : ℚ :=
  if crimeScore ≥ 80 then 0.15
  else if crimeScore ≥ 60 then 0.18
  else if crimeScore ≥ 40 then 0.22
  else if crimeScore ≥ 20 then 0.26
  else 0.30

/-- `calculateDensityWeight`: severity-inverse weight of the density
sub-score. -/
def calculateDensityWeight (densityScore : ℚ) : ℚ :=
  if densityScore ≥ 60 then 0.10
  else if densityScore ≥ 40 then 0.15
  else if densityScore ≥ 20 then 0.20
  else 0.25

/-- The fixed base FMR weight (`const fmrWeight = 0.6`). -/
def fmrWeight : ℚ := 0.6

/-- `totalWeight` of `calculateInvestmentScore`, as a function of the crime
and density sub-scores. -/
def totalWeight (crimeScore densityScore : ℚ) : ℚ :=
  fmrWeight + calculateCrimeWeight crimeScore + calculateDensityWeight densityScore

/-- `normalizedFmrWeight` of `calculateInvestmentScore`. -/
def normalizedFmrWeight (crimeScore densityScore : ℚ) : ℚ :=
  fmrWeight / totalWeight crimeScore densityScore

/-- `normalizedCrimeWeight` of `calculateInvestmentScore`. -/
def normalizedCrimeWeight (crimeScore densityScore : ℚ) : ℚ :=
  calculateCrimeWeight crimeScore / totalWeight crimeScore densityScore

/-- `normalizedDensityWeight` of `calculateInvestmentScore`. -/
def normalizedDensityWeight (crimeScore densityScore : ℚ) : ℚ :=
  calculateDensityWeight densityScore / totalWeight crimeScore densityScore

/-- The weighted composite `totalScore` of `calculateInvestmentScore`. -/
def totalScore (fmrScore crimeScore densityScore : ℚ) : ℚ :=
  jsRound (fmrScore * normalizedFmrWeight crimeScore densityScore +
    crimeScore * normalizedCrimeWeight crimeScore densityScore +
    densityScore * normalizedDensityWeight crimeScore densityScore)

/-- `scoreToGrade`: letter grade from the composite score. -/
def scoreToGrade (score : ℚ) : Grade :=
  if score ≥ 90 then Grade.A
  else if score ≥ 80 then Grade.B
  else if score ≥ 70 then Grade.C
  else if score ≥ 60 then Grade.D
  else Grade.F

/-- `scoreToRecommendation`: recommendation label from the composite score. -/
def scoreToRecommendation (score : ℚ) : Recommendation :=
  if score ≥ 80 then Recommendation.Excellent
  else if score ≥ 60 then Recommendation.Good
  else if score ≥ 40 then Recommendation.Fair
  else Recommendation.Avoid

/-- The default value of the scorer's `populationDensity` parameter
(`populationDensity: number = 1000`), used when a caller omits the
argument. -/
def defaultPopulationDensity : ℚ := 1000

/-- `calculateInvestmentScore` from `src/utils/scoreCalculator.ts`:
`null` when FMR data is absent or the resolved 3BR rent is 0, otherwise
the full `InvestmentMetrics` record. -/
def calculateInvestmentScore (fmrData : Option FMRData) (crimeData : Option CrimeData)
    (medianHomePrice : ℚ) (populationDensity : ℚ) : Option InvestmentMetrics :=
  match fmrData with
  | none => none
  | some fd =>
      let threeBedroomRent := resolveThreeBedroomRent fd
      if threeBedroomRent = 0 then none
      else
        let fmrScore := calculateFMRScore threeBedroomRent medianHomePrice
        let crimeScore := calculateCrimeScore crimeData
        let densityScore := calculateDensityScore populationDensity
        let score := totalScore fmrScore crimeScore densityScore
        let maxPriceFor2PercentRule := jsRound (threeBedroomRent / 0.02)
        let rentToPrice :=
          if medianHomePrice > 0 then threeBedroomRent * 12 / medianHomePrice else 0
        some
          { score := score
            grade := scoreToGrade score
            recommendation := scoreToRecommendation score
            estimatedPriceRange :=
              { low := jsRound (maxPriceFor2PercentRule * 0.85)
                high := maxPriceFor2PercentRule
                median := maxPriceFor2PercentRule }
            averageHomeCost := medianHomePrice
            requiredRentFor2Percent := jsRound (medianHomePrice * 0.02)
            rentToPriceRatio := jsRound (rentToPrice * 10000) / 100
            breakdown :=
              { fmrScore := jsRound fmrScore
                crimeScore := jsRound crimeScore
                densityScore := jsRound densityScore
                fmrWeight := jsRound (normalizedFmrWeight crimeScore densityScore * 100)
                crimeWeight := jsRound (normalizedCrimeWeight crimeScore densityScore * 100)
                densityWeight := jsRound (normalizedDensityWeight crimeScore densityScore * 100) } }

/-! ### Affordability solver (`CashFlowCalculator.calculateMaxPrice`) -/

/-- The user-adjustable inputs of `calculateMaxPrice` together with the
3BR FMR rent (`fmrRent`).  Percentages are stored as in the component
state: whole-number percent values. -/
structure CalcInputs where
  fmrRent : ℚ
  desiredCashFlow : ℚ
  downPaymentPercent : ℚ
  interestRate : ℚ
  propertyTaxRate : ℚ
  insurance : ℚ
  hoa : ℚ
  vacancy : ℚ
  maintenance : ℚ
  propertyManagement : ℚ

/-- `vacancyCost = monthlyRent * (vacancy / 100)`. -/
def vacancyCost (P : CalcInputs) : ℚ := P.fmrRent * (P.vacancy / 100)

/-- `maintenanceCost = monthlyRent * (maintenance / 100)`. -/
def maintenanceCost (P : CalcInputs) : ℚ := P.fmrRent * (P.maintenance / 100)

/-- `pmCost = monthlyRent * (propertyManagement / 100)`. -/
def pmCost (P : CalcInputs) : ℚ := P.fmrRent * (P.propertyManagement / 100)

/-- `effectiveMonthlyIncome = monthlyRent - vacancyCost`. -/
def effectiveMonthlyIncome (P : CalcInputs) : ℚ := P.fmrRent - vacancyCost P

/-- `fixedOperatingCosts = insurance + hoa + maintenanceCost + pmCost`. -/
def fixedOperatingCosts (P : CalcInputs) : ℚ :=
  P.insurance + P.hoa + maintenanceCost P + pmCost P

/-- `availableForDebtService = effectiveMonthlyIncome - fixedOperatingCosts -
desiredCashFlow`. -/
def availableForDebtService (P : CalcInputs) : ℚ :=
  effectiveMonthlyIncome P - fixedOperatingCosts P - P.desiredCashFlow

/-- The 30-year amortizing monthly mortgage payment at a candidate price:
loan amount is `price * (1 - downPaymentPercent / 100)`, monthly rate is
`interestRate / 100 / 12`, and the 0-rate edge case is straight-line
`loanAmount / numPayments`.  The same formula appears twice in the source
(inside the search loop and for the final figures). -/
def monthlyMortgagePayment (P : CalcInputs) (price : ℚ) : ℚ :=
  let loanAmount := price * (1 - P.downPaymentPercent / 100)
  let monthlyRate := P.interestRate / 100 / 12
  let numPayments : ℚ := 30 * 12
  if monthlyRate = 0 then loanAmount / numPayments
  else
    loanAmount * (monthlyRate * (1 + monthlyRate) ^ (360 : ℕ)) /
      ((1 + monthlyRate) ^ (360 : ℕ) - 1)

/-- `propertyTax = (price * propertyTaxRate / 100) / 12`. -/
def monthlyPropertyTax (P : CalcInputs) (price : ℚ) : ℚ :=
  price * P.propertyTaxRate / 100 / 12

/-- `debtService = mortgage + propertyTax` at a candidate price. -/
def debtService (P : CalcInputs) (price : ℚ) : ℚ :=
  monthlyMortgagePayment P price + monthlyPropertyTax P price

/-- The binary-search loop of `calculateMaxPrice` (`for i in 0..99`), with
the remaining iteration count as fuel.  State is `(low, high, bestPrice)`;
a test price within $10 of the target returns immediately, otherwise the
matching half-interval is kept, and a collapsed interval (width < 1)
returns the lower bound. -/
def searchLoop (P : CalcInputs) (avail : ℚ) : ℕ → ℚ → ℚ → ℚ → ℚ
  | 0, _, _, best => best
  | n + 1, low, high, best =>
      let testPrice := (low + high) / 2
      let ds := debtService P testPrice
      if jsAbs (ds - avail) < 10 then testPrice
      else if ds < avail then
        if high - testPrice < 1 then testPrice
        else searchLoop P avail n testPrice high testPrice
      else
        if testPrice - low < 1 then low
        else searchLoop P avail n low testPrice best

/-- Result record of the solver: the six values the component publishes
through its `set*` state setters. -/
structure AffordabilityResult where
  maxPurchasePrice : ℚ
  monthlyMortgage : ℚ
  totalMonthlyExpenses : ℚ
  netOperatingIncome : ℚ
  cashOnCashReturn : ℚ
  capRate : ℚ

/-- The final-figures block of `calculateMaxPrice`: mortgage, tax, total
expenses, NOI, cash-on-cash return (guarded by `downPayment > 0`) and cap
rate (guarded by `bestPrice > 0`) at the accepted price. -/
def finalMetrics (P : CalcInputs) (bestPrice : ℚ) : AffordabilityResult :=
  let mortgage := monthlyMortgagePayment P bestPrice
  let propertyTax := monthlyPropertyTax P bestPrice
  let totalExpenses :=
    mortgage + propertyTax + P.insurance + P.hoa + maintenanceCost P + pmCost P
  let noi := P.fmrRent * 12 -
    (vacancyCost P + maintenanceCost P + pmCost P + P.insurance + P.hoa) * 12 -
    propertyTax * 12
  let downPayment := bestPrice * (P.downPaymentPercent / 100)
  let annualCashFlow := P.desiredCashFlow * 12
  { maxPurchasePrice := bestPrice
    monthlyMortgage := mortgage
    totalMonthlyExpenses := totalExpenses
    netOperatingIncome := noi
    cashOnCashReturn := if downPayment > 0 then annualCashFlow / downPayment * 100 else 0
    capRate := if bestPrice > 0 then noi / bestPrice * 100 else 0 }

/-- `calculateMaxPrice`: the infeasibility check (available for debt
service ≤ 0 reports a zero price and the fixed-costs shortfall without
searching), otherwise the binary search over [1000, 2000000] for 100
iterations followed by the final figures. -/
def calculateMaxPrice (P : CalcInputs) : AffordabilityResult :=
  if availableForDebtService P ≤ 0 then
    { maxPurchasePrice := 0
      monthlyMortgage := 0
      totalMonthlyExpenses := fixedOperatingCosts P
      netOperatingIncome := P.fmrRent * 12 -
        (vacancyCost P + maintenanceCost P + pmCost P + P.insurance + P.hoa) * 12
      cashOnCashReturn := 0
      capRate := 0 }
  else
    finalMetrics P (searchLoop P (availableForDebtService P) 100 1000 2000000 0)

/-! ### Concrete sample inputs used by witnesses and counterexamples -/

/-- A concrete FMR record: a ZIP code with a direct `fmr_3` rent of 2000. -/
def fmrSample : FMRData := ⟨"79936", ⟨some 2000, none⟩⟩

/-- A concrete crime record with both rates 0 (far below both baselines). -/
def crimeSampleSafe : CrimeData := ⟨0, 0⟩

/-- The scorer's output on (`fmrSample`, `crimeSampleSafe`, price 100000,
density 5000): safest crime band and urban density, so crime weight 0.15
and density weight 0.10 (total 0.85). -/
def metricsSample : InvestmentMetrics :=
  { score := 100
    grade := Grade.A
    recommendation := Recommendation.Excellent
    estimatedPriceRange := ⟨85000, 100000, 100000⟩
    averageHomeCost := 100000
    requiredRentFor2Percent := 2000
    rentToPriceRatio := 24
    breakdown := ⟨100, 100, 100, 71, 18, 12⟩ }

/-- The scorer's output on (`fmrSample`, no crime data, price 100000,
density left at the parameter default 1000). -/
def metricsSampleDefaultDensity : InvestmentMetrics :=
  { score := 84
    grade := Grade.B
    recommendation := Recommendation.Excellent
    estimatedPriceRange := ⟨85000, 100000, 100000⟩
    averageHomeCost := 100000
    requiredRentFor2Percent := 2000
    rentToPriceRatio := 24
    breakdown := ⟨100, 50, 60, 65, 24, 11⟩ }

/-- Solver input whose desired cash flow is infeasible (available for debt
service is 920 − 300 − 2000 = −1380). -/
def solverInfeasible : CalcInputs := ⟨1000, 2000, 20, 6.5, 1.2, 100, 0, 8, 10, 10⟩

/-- Degenerate-but-feasible solver input: rent 1000 and every percentage
and fixed cost 0, so the available amount is 1000 and the debt service at
price p is p/360. -/
def solverFeasible : CalcInputs := ⟨1000, 0, 0, 0, 0, 0, 0, 0, 0, 0⟩

/-- Same degenerate rates with rent 1000000: the available amount (10^6)
exceeds the debt service at the search's upper bound (2000000/360), so the
binary search collapses at the top of its bracket. -/
def solverHugeRent : CalcInputs := ⟨1000000, 0, 0, 0, 0, 0, 0, 0, 0, 0⟩

/-! ### Helper lemmas about `jsRound` and the sub-scores -/

theorem jsRound_mono {x y : ℚ} (h : x ≤ y) : jsRound x ≤ jsRound y := by
  unfold jsRound
  exact_mod_cast Int.floor_mono (by linarith)

theorem jsRound_intCast (z : ℤ) : jsRound (z : ℚ) = (z : ℚ) := by
  unfold jsRound
  rw [Int.floor_int_add]
  norm_num

theorem le_jsRound_of_intCast_le {z : ℤ} {x : ℚ} (h : (z : ℚ) ≤ x) :
    (z : ℚ) ≤ jsRound x := by
  have h2 := jsRound_mono h
  rwa [jsRound_intCast] at h2

theorem jsRound_le_of_le_intCast {z : ℤ} {x : ℚ} (h : x ≤ (z : ℚ)) :
    jsRound x ≤ (z : ℚ) := by
  have h2 := jsRound_mono h
  rwa [jsRound_intCast] at h2

theorem calculateFMRScore_cases (r p : ℚ) :
    calculateFMRScore r p = 25 ∨ calculateFMRScore r p = 50 ∨
      calculateFMRScore r p = 75 ∨ calculateFMRScore r p = 100 := by
  simp only [calculateFMRScore]
  split_ifs <;> norm_num

theorem calculateFMRScore_bounds (r p : ℚ) :
    25 ≤ calculateFMRScore r p ∧ calculateFMRScore r p ≤ 100 := by
  rcases calculateFMRScore_cases r p with h | h | h | h <;> rw [h] <;> norm_num

theorem crimeRateTo10Scale_bounds (rate avg : ℚ) :
    1 ≤ crimeRateTo10Scale rate avg ∧ crimeRateTo10Scale rate avg ≤ 10 := by
  simp only [crimeRateTo10Scale]
  split_ifs <;> norm_num

theorem calculateCrimeScore_bounds (cd : Option CrimeData) :
    10 ≤ calculateCrimeScore cd ∧ calculateCrimeScore cd ≤ 100 := by
  match cd with
  | none => norm_num [calculateCrimeScore]
  | some c =>
      unfold calculateCrimeScore
      have hv := crimeRateTo10Scale_bounds c.violent_crime_rate 380
      have hp := crimeRateTo10Scale_bounds c.property_crime_rate 1958
      have hs1 : (1 : ℚ) ≤ jsRound (crimeRateTo10Scale c.violent_crime_rate 380 * 0.6 +
          crimeRateTo10Scale c.property_crime_rate 1958 * 0.4) := by
        have : ((1 : ℤ) : ℚ) ≤ crimeRateTo10Scale c.violent_crime_rate 380 * 0.6 +
            crimeRateTo10Scale c.property_crime_rate 1958 * 0.4 := by
          push_cast
          nlinarith [hv.1, hp.1]
        have h2 := le_jsRound_of_intCast_le this
        exact_mod_cast h2
      have hs2 : jsRound (crimeRateTo10Scale c.violent_crime_rate 380 * 0.6 +
          crimeRateTo10Scale c.property_crime_rate 1958 * 0.4) ≤ (10 : ℚ) := by
        have : crimeRateTo10Scale c.violent_crime_rate 380 * 0.6 +
            crimeRateTo10Scale c.property_crime_rate 1958 * 0.4 ≤ ((10 : ℤ) : ℚ) := by
          push_cast
          nlinarith [hv.2, hp.2]
        have h2 := jsRound_le_of_le_intCast this
        exact_mod_cast h2
      constructor
      · have : ((10 : ℤ) : ℚ) ≤ (11 - jsRound (crimeRateTo10Scale c.violent_crime_rate 380 * 0.6 +
            crimeRateTo10Scale c.property_crime_rate 1958 * 0.4)) * 10 := by
          push_cast
          nlinarith [hs2]
        have h2 := le_jsRound_of_intCast_le this
        exact_mod_cast h2
      · have : (11 - jsRound (crimeRateTo10Scale c.violent_crime_rate 380 * 0.6 +
            crimeRateTo10Scale c.property_crime_rate 1958 * 0.4)) * 10 ≤ ((100 : ℤ) : ℚ) := by
          push_cast
          nlinarith [hs1]
        have h2 := jsRound_le_of_le_intCast this
        exact_mod_cast h2

theorem calculateDensityScore_cases (d : ℚ) :
    calculateDensityScore d = 20 ∨ calculateDensityScore d = 40 ∨
      calculateDensityScore d = 60 ∨ calculateDensityScore d = 80 ∨
      calculateDensityScore d = 100 := by
  unfold calculateDensityScore
  split_ifs <;> simp

theorem calculateDensityScore_bounds (d : ℚ) :
    20 ≤ calculateDensityScore d ∧ calculateDensityScore d ≤ 100 := by
  rcases calculateDensityScore_cases d with h | h | h | h | h <;> rw [h] <;> norm_num

theorem calculateCrimeWeight_cases (c : ℚ) :
    calculateCrimeWeight c = 0.15 ∨ calculateCrimeWeight c = 0.18 ∨
      calculateCrimeWeight c = 0.22 ∨ calculateCrimeWeight c = 0.26 ∨
      calculateCrimeWeight c = 0.30 := by
  unfold calculateCrimeWeight
  split_ifs <;> simp

theorem calculateCrimeWeight_bounds (c : ℚ) :
    0.15 ≤ calculateCrimeWeight c ∧ calculateCrimeWeight c ≤ 0.30 := by
  rcases calculateCrimeWeight_cases c with h | h | h | h | h <;> rw [h] <;> norm_num

theorem calculateDensityWeight_cases (d : ℚ) :
    calculateDensityWeight d = 0.10 ∨ calculateDensityWeight d = 0.15 ∨
      calculateDensityWeight d = 0.20 ∨ calculateDensityWeight d = 0.25 := by
  unfold calculateDensityWeight
  split_ifs <;> simp

theorem calculateDensityWeight_bounds (d : ℚ) :
    0.10 ≤ calculateDensityWeight d ∧ calculateDensityWeight d ≤ 0.25 := by
  rcases calculateDensityWeight_cases d with h | h | h | h <;> rw [h] <;> norm_num

theorem totalWeight_pos (c d : ℚ) : 0 < totalWeight c d := by
  have h1 := (calculateCrimeWeight_bounds c).1
  have h2 := (calculateDensityWeight_bounds d).1
  unfold totalWeight fmrWeight
  norm_num at h1 h2 ⊢
  linarith

theorem normalizedWeights_sum (c d : ℚ) :
    normalizedFmrWeight c d + normalizedCrimeWeight c d + normalizedDensityWeight c d = 1 := by
  unfold normalizedFmrWeight normalizedCrimeWeight normalizedDensityWeight
  rw [div_add_div_same, div_add_div_same]
  exact div_self (ne_of_gt (totalWeight_pos c d))

theorem normalizedFmrWeight_nonneg (c d : ℚ) : 0 ≤ normalizedFmrWeight c d := by
  unfold normalizedFmrWeight
  exact div_nonneg (by norm_num [fmrWeight]) (le_of_lt (totalWeight_pos c d))

theorem normalizedCrimeWeight_nonneg (c d : ℚ) : 0 ≤ normalizedCrimeWeight c d := by
  unfold normalizedCrimeWeight
  exact div_nonneg (by linarith [(calculateCrimeWeight_bounds c).1])
    (le_of_lt (totalWeight_pos c d))

theorem normalizedDensityWeight_nonneg (c d : ℚ) : 0 ≤ normalizedDensityWeight c d := by
  unfold normalizedDensityWeight
  exact div_nonneg (by linarith [(calculateDensityWeight_bounds d).1])
    (le_of_lt (totalWeight_pos c d))

/-- The weighted composite of sub-scores in [10, 100] stays in [10, 100]. -/
theorem totalScore_bounds {f c d : ℚ} (hf1 : 10 ≤ f) (hf2 : f ≤ 100)
    (hc1 : 10 ≤ c) (hc2 : c ≤ 100) (hd1 : 10 ≤ d) (hd2 : d ≤ 100) :
    10 ≤ totalScore f c d ∧ totalScore f c d ≤ 100 := by
  have hw := normalizedWeights_sum c d
  have hwf := normalizedFmrWeight_nonneg c d
  have hwc := normalizedCrimeWeight_nonneg c d
  have hwd := normalizedDensityWeight_nonneg c d
  have e1 := mul_le_mul_of_nonneg_right hf1 hwf
  have e2 := mul_le_mul_of_nonneg_right hf2 hwf
  have e3 := mul_le_mul_of_nonneg_right hc1 hwc
  have e4 := mul_le_mul_of_nonneg_right hc2 hwc
  have e5 := mul_le_mul_of_nonneg_right hd1 hwd
  have e6 := mul_le_mul_of_nonneg_right hd2 hwd
  unfold totalScore
  constructor
  · have h10 : ((10 : ℤ) : ℚ) ≤ f * normalizedFmrWeight c d + c * normalizedCrimeWeight c d +
        d * normalizedDensityWeight c d := by
      push_cast
      nlinarith [hw]
    exact_mod_cast le_jsRound_of_intCast_le h10
  · have h100 : f * normalizedFmrWeight c d + c * normalizedCrimeWeight c d +
        d * normalizedDensityWeight c d ≤ ((100 : ℤ) : ℚ) := by
      push_cast
      nlinarith [hw]
    exact_mod_cast jsRound_le_of_le_intCast h100

/-! ### Evaluations of the scorer at the sample inputs -/

theorem resolveThreeBedroomRent_sample : resolveThreeBedroomRent fmrSample = 2000 := by
  norm_num [resolveThreeBedroomRent, fmrSample]

theorem scorer_sample_eval :
    calculateInvestmentScore (some fmrSample) (some crimeSampleSafe) 100000 5000 =
      some metricsSample := by
  norm_num [calculateInvestmentScore, resolveThreeBedroomRent, fmrSample, crimeSampleSafe,
    metricsSample, calculateFMRScore, calculateCrimeScore, calculateDensityScore,
    crimeRateTo10Scale, totalScore, normalizedFmrWeight, normalizedCrimeWeight,
    normalizedDensityWeight, totalWeight, fmrWeight, calculateCrimeWeight,
    calculateDensityWeight, scoreToGrade, scoreToRecommendation, jsRound]

theorem scorer_default_density_eval :
    calculateInvestmentScore (some fmrSample) none 100000 defaultPopulationDensity =
      some metricsSampleDefaultDensity := by
  norm_num [calculateInvestmentScore, resolveThreeBedroomRent, fmrSample,
    defaultPopulationDensity, metricsSampleDefaultDensity, calculateFMRScore,
    calculateCrimeScore, calculateDensityScore, totalScore, normalizedFmrWeight,
    normalizedCrimeWeight, normalizedDensityWeight, totalWeight, fmrWeight,
    calculateCrimeWeight, calculateDensityWeight, scoreToGrade, scoreToRecommendation, jsRound]

/-- Inversion: a scorer result determines the fields the claims inspect. -/
theorem scorer_some_inv (fd : FMRData) (cd : Option CrimeData) (price density : ℚ)
    (m : InvestmentMetrics)
    (h : calculateInvestmentScore (some fd) cd price density = some m) :
    resolveThreeBedroomRent fd ≠ 0 ∧
    m.score = totalScore (calculateFMRScore (resolveThreeBedroomRent fd) price)
      (calculateCrimeScore cd) (calculateDensityScore density) ∧
    m.breakdown.crimeScore = jsRound (calculateCrimeScore cd) ∧
    m.breakdown.densityScore = jsRound (calculateDensityScore density) ∧
    m.breakdown.fmrWeight =
      jsRound (normalizedFmrWeight (calculateCrimeScore cd) (calculateDensityScore density) * 100) ∧
    m.breakdown.crimeWeight =
      jsRound (normalizedCrimeWeight (calculateCrimeScore cd) (calculateDensityScore density) * 100) ∧
    m.breakdown.densityWeight =
      jsRound (normalizedDensityWeight (calculateCrimeScore cd) (calculateDensityScore density) * 100) := by
  simp only [calculateInvestmentScore] at h
  by_cases h0 : resolveThreeBedroomRent fd = 0
  · rw [if_pos h0] at h
    cases h
  · rw [if_neg h0] at h
    injection h with h
    subst h
    exact ⟨h0, rfl, rfl, rfl, rfl, rfl, rfl⟩

/-- A nonzero resolved rent always produces a scorer result. -/
theorem scorer_some_of_rent_ne (fd : FMRData) (cd : Option CrimeData) (price density : ℚ)
    (h : resolveThreeBedroomRent fd ≠ 0) :
    ∃ m : InvestmentMetrics, calculateInvestmentScore (some fd) cd price density = some m := by
  simp only [calculateInvestmentScore]
  rw [if_neg h]
  exact ⟨_, rfl⟩

/-! ### Claim C1 -/

/-- C1: for every input whose resolved 3-bedroom rent and home price are
positive, the scorer produces a result whose composite score lies in
[0, 100], and the three normalized weights sum to exactly 1. -/
theorem score_in_range_and_weights_sum_one (fd : FMRData) (cd : Option CrimeData)
    (price density : ℚ) (hrent : 0 < resolveThreeBedroomRent fd) (hprice : 0 < price) :
    ∃ m : InvestmentMetrics,
      calculateInvestmentScore (some fd) cd price density = some m ∧
      0 ≤ m.score ∧ m.score ≤ 100 ∧
      normalizedFmrWeight (calculateCrimeScore cd) (calculateDensityScore density) +
        normalizedCrimeWeight (calculateCrimeScore cd) (calculateDensityScore density) +
        normalizedDensityWeight (calculateCrimeScore cd) (calculateDensityScore density) = 1 := by
  obtain ⟨m, hm⟩ := scorer_some_of_rent_ne fd cd price density (ne_of_gt hrent)
  obtain ⟨-, hsc, -, -, -, -, -⟩ := scorer_some_inv fd cd price density m hm
  have hf := calculateFMRScore_bounds (resolveThreeBedroomRent fd) price
  have hc := calculateCrimeScore_bounds cd
  have hd := calculateDensityScore_bounds density
  have hts := totalScore_bounds (by linarith [hf.1] : (10:ℚ) ≤ _) hf.2 hc.1 hc.2
    (by linarith [hd.1] : (10:ℚ) ≤ _) hd.2
  exact ⟨m, hm, by rw [hsc]; linarith [hts.1], by rw [hsc]; exact hts.2,
    normalizedWeights_sum _ _⟩

/-- Witness for C1 at the concrete sample input. -/
theorem score_in_range_and_weights_sum_one_witness :
    0 < resolveThreeBedroomRent fmrSample ∧ (0 : ℚ) < 100000 ∧
    ∃ m : InvestmentMetrics,
      calculateInvestmentScore (some fmrSample) (some crimeSampleSafe) 100000 5000 = some m ∧
      0 ≤ m.score ∧ m.score ≤ 100 ∧
      normalizedFmrWeight (calculateCrimeScore (some crimeSampleSafe))
          (calculateDensityScore 5000) +
        normalizedCrimeWeight (calculateCrimeScore (some crimeSampleSafe))
          (calculateDensityScore 5000) +
        normalizedDensityWeight (calculateCrimeScore (some crimeSampleSafe))
          (calculateDensityScore 5000) = 1 :=
  ⟨by rw [resolveThreeBedroomRent_sample]; norm_num, by norm_num,
    score_in_range_and_weights_sum_one fmrSample (some crimeSampleSafe) 100000 5000
      (by rw [resolveThreeBedroomRent_sample]; norm_num) (by norm_num)⟩

/-! ### Claim C4 -/

/-- The three rounded weight percentages always sum to a value in
[99, 101]: case analysis over the 5 × 4 possible weight pairs. -/
theorem roundedWeights_sum_bounds (c d : ℚ) :
    99 ≤ jsRound (normalizedFmrWeight c d * 100) + jsRound (normalizedCrimeWeight c d * 100) +
        jsRound (normalizedDensityWeight c d * 100) ∧
      jsRound (normalizedFmrWeight c d * 100) + jsRound (normalizedCrimeWeight c d * 100) +
        jsRound (normalizedDensityWeight c d * 100) ≤ 101 := by
  unfold normalizedFmrWeight normalizedCrimeWeight normalizedDensityWeight totalWeight fmrWeight
  rcases calculateCrimeWeight_cases c with h1 | h1 | h1 | h1 | h1 <;>
    rcases calculateDensityWeight_cases d with h2 | h2 | h2 | h2 <;>
      rw [h1, h2] <;> norm_num [jsRound]

/-- C4 (amended): the three integer weight percentages reported in the
score breakdown sum to a value within 1 of 100 (99, 100 or 101) — not
always exactly 100. -/
theorem breakdown_weights_sum_within_one_of_100 (fd : FMRData) (cd : Option CrimeData)
    (price density : ℚ) (m : InvestmentMetrics)
    (h : calculateInvestmentScore (some fd) cd price density = some m) :
    99 ≤ m.breakdown.fmrWeight + m.breakdown.crimeWeight + m.breakdown.densityWeight ∧
      m.breakdown.fmrWeight + m.breakdown.crimeWeight + m.breakdown.densityWeight ≤ 101 := by
  obtain ⟨-, -, -, -, hw1, hw2, hw3⟩ := scorer_some_inv fd cd price density m h
  rw [hw1, hw2, hw3]
  exact roundedWeights_sum_bounds _ _

/-- C4 counterexample: at the sample input (safest crime band, urban
density) the reported weight percentages are 71, 18 and 12, summing to
101 rather than 100. -/
theorem breakdown_weights_sum_101_at_sample :
    ∃ m : InvestmentMetrics,
      calculateInvestmentScore (some fmrSample) (some crimeSampleSafe) 100000 5000 = some m ∧
      m.breakdown.fmrWeight + m.breakdown.crimeWeight + m.breakdown.densityWeight = 101 ∧
      m.breakdown.fmrWeight + m.breakdown.crimeWeight + m.breakdown.densityWeight ≠ 100 :=
  ⟨metricsSample, scorer_sample_eval, by norm_num [metricsSample], by norm_num [metricsSample]⟩

/-- Witness for the amended C4 at the concrete sample input. -/
theorem breakdown_weights_sum_within_one_of_100_witness :
    99 ≤ metricsSample.breakdown.fmrWeight + metricsSample.breakdown.crimeWeight +
        metricsSample.breakdown.densityWeight ∧
      metricsSample.breakdown.fmrWeight + metricsSample.breakdown.crimeWeight +
        metricsSample.breakdown.densityWeight ≤ 101 :=
  breakdown_weights_sum_within_one_of_100 fmrSample (some crimeSampleSafe) 100000 5000
    metricsSample scorer_sample_eval

/-! ### Claim C5 -/

/-- C5 (amended): absent crime data gives crime sub-score 50; a density
argument of 0 (how callers encode missing density data) gives the
low-density fallback 20; but an omitted density argument defaults to
1000, giving sub-score 60; in each case the scorer still returns a
result. -/
theorem absent_data_default_subscores (fd : FMRData) (price density : ℚ)
    (h : resolveThreeBedroomRent fd ≠ 0) :
    ∃ m : InvestmentMetrics,
      calculateInvestmentScore (some fd) none price density = some m ∧
      m.breakdown.crimeScore = 50 ∧
      (density = 0 → m.breakdown.densityScore = 20) ∧
      (density = defaultPopulationDensity → m.breakdown.densityScore = 60) := by
  obtain ⟨m, hm⟩ := scorer_some_of_rent_ne fd none price density h
  obtain ⟨-, -, hcs, hds, -, -, -⟩ := scorer_some_inv fd none price density m hm
  refine ⟨m, hm, ?_, ?_, ?_⟩
  · rw [hcs]
    norm_num [calculateCrimeScore, jsRound]
  · intro h0
    rw [hds, h0]
    norm_num [calculateDensityScore, jsRound]
  · intro h0
    rw [hds, h0]
    norm_num [defaultPopulationDensity, calculateDensityScore, jsRound]

/-- C5 counterexample: when the density argument is simply omitted (the
parameter default 1000), the density sub-score the scorer reports is 60,
not the claimed low-density fallback 20. -/
theorem density_default_gives_60_not_20 :
    calculateDensityScore defaultPopulationDensity = 60 ∧
    ∃ m : InvestmentMetrics,
      calculateInvestmentScore (some fmrSample) none 100000 defaultPopulationDensity = some m ∧
      m.breakdown.densityScore = 60 ∧ m.breakdown.densityScore ≠ 20 :=
  ⟨by norm_num [calculateDensityScore, defaultPopulationDensity],
    metricsSampleDefaultDensity, scorer_default_density_eval,
    by norm_num [metricsSampleDefaultDensity], by norm_num [metricsSampleDefaultDensity]⟩

/-- Witness for the amended C5 at the concrete sample input with density 0. -/
theorem absent_data_default_subscores_witness :
    ∃ m : InvestmentMetrics,
      calculateInvestmentScore (some fmrSample) none 100000 0 = some m ∧
      m.breakdown.crimeScore = 50 ∧
      ((0 : ℚ) = 0 → m.breakdown.densityScore = 20) ∧
      ((0 : ℚ) = defaultPopulationDensity → m.breakdown.densityScore = 60) :=
  absent_data_default_subscores fmrSample 100000 0
    (by rw [resolveThreeBedroomRent_sample]; norm_num)

/-! ### Claim C7 -/

/-- C7: the scorer returns no result exactly when the FMR input is null or
the resolved 3-bedroom rent is zero; in particular no score, grade or
recommendation is produced in that case. -/
theorem scorer_none_iff (fmrData : Option FMRData) (cd : Option CrimeData)
    (price density : ℚ) :
    calculateInvestmentScore fmrData cd price density = none ↔
      fmrData = none ∨ ∃ fd, fmrData = some fd ∧ resolveThreeBedroomRent fd = 0 := by
  cases fmrData with
  | none => simp [calculateInvestmentScore]
  | some fd =>
      simp only [calculateInvestmentScore]
      by_cases h : resolveThreeBedroomRent fd = 0
      · rw [if_pos h]
        simp [h]
      · rw [if_neg h]
        simp [h]

/-! ### Claim C8 -/

/-- C8: at exactly the national baseline rates (violent 380, property
1958, both ratio 1.0) the violent and property scales are 5, the rounded
overall scale is 5, and the crime sub-score is (11 − 5) * 10 = 60. -/
theorem crime_baseline_scales_and_score :
    crimeRateTo10Scale 380 380 = 5 ∧ crimeRateTo10Scale 1958 1958 = 5 ∧
    jsRound ((5 : ℚ) * 0.6 + (5 : ℚ) * 0.4) = 5 ∧
    calculateCrimeScore (some ⟨380, 1958⟩) = 60 := by
  refine ⟨?_, ?_, ?_, ?_⟩ <;>
    norm_num [crimeRateTo10Scale, calculateCrimeScore, jsRound]

/-! ### Claim C9 -/

/-- A lower bound below every chain value and the default bounds the chain. -/
theorem le_stepChain {v dflt : ℚ} {l : List (ℚ × ℚ)} (x : ℚ)
    (hl : ∀ p ∈ l, v ≤ p.2) (hd : v ≤ dflt) : v ≤ stepChain l x dflt := by
  induction l with
  | nil => simpa [stepChain] using hd
  | cons p rest ih =>
      obtain ⟨t, w⟩ := p
      simp only [stepChain]
      split_ifs
      · exact hl (t, w) (by simp)
      · exact ih fun q hq => hl q (by simp [hq])

/-- A threshold chain with non-decreasing values is monotone in its input. -/
theorem stepChain_mono {x y dflt : ℚ} {l : List (ℚ × ℚ)}
    (hpair : l.Pairwise (fun p q => p.2 ≤ q.2)) (hdflt : ∀ p ∈ l, p.2 ≤ dflt)
    (hxy : x ≤ y) : stepChain l x dflt ≤ stepChain l y dflt := by
  induction l with
  | nil => simp [stepChain]
  | cons p rest ih =>
      obtain ⟨t, w⟩ := p
      obtain ⟨hp, hrest⟩ := List.pairwise_cons.mp hpair
      simp only [stepChain]
      split_ifs with h1 h2 h3
      · exact le_refl _
      · exact le_stepChain y (fun q hq => hp q hq) (hdflt (t, w) (by simp))
      · exact absurd (hxy.trans h3) h1
      · exact ih hrest fun q hq => hdflt q (by simp [hq])

/-- `crimeRateTo10Scale` is the threshold chain over `crimeThresholds`. -/
theorem crimeRateTo10Scale_eq_stepChain (rate avg : ℚ) :
    crimeRateTo10Scale rate avg = stepChain crimeThresholds (rate / avg) 10 := rfl

/-- The 1–10 danger scale is monotone in the rate (positive baseline). -/
theorem crimeRateTo10Scale_mono {r1 r2 avg : ℚ} (havg : 0 < avg) (h : r1 ≤ r2) :
    crimeRateTo10Scale r1 avg ≤ crimeRateTo10Scale r2 avg := by
  have hr : r1 / avg ≤ r2 / avg := (div_le_div_iff_of_pos_right havg).mpr h
  rw [crimeRateTo10Scale_eq_stepChain, crimeRateTo10Scale_eq_stepChain]
  refine stepChain_mono ?_ ?_ hr
  · norm_num [crimeThresholds, List.pairwise_cons]
  · intro q hq
    fin_cases hq <;> norm_num

/-- C9: the crime sub-score is monotonically non-increasing in each crime
rate: raising either rate (the other fixed) never raises the score. -/
theorem crime_score_antitone_in_rates (v1 v2 p1 p2 : ℚ) (hv : v1 ≤ v2) (hp : p1 ≤ p2) :
    calculateCrimeScore (some ⟨v2, p2⟩) ≤ calculateCrimeScore (some ⟨v1, p1⟩) := by
  simp only [calculateCrimeScore]
  have h1 := crimeRateTo10Scale_mono (by norm_num : (0:ℚ) < 380) hv
  have h2 := crimeRateTo10Scale_mono (by norm_num : (0:ℚ) < 1958) hp
  have h3 : jsRound (crimeRateTo10Scale v1 380 * 0.6 + crimeRateTo10Scale p1 1958 * 0.4) ≤
      jsRound (crimeRateTo10Scale v2 380 * 0.6 + crimeRateTo10Scale p2 1958 * 0.4) :=
    jsRound_mono (by nlinarith)
  exact jsRound_mono (by linarith)

/-- Witness for C9: raising both rates from 0 to the national baselines
does not raise the crime sub-score. -/
theorem crime_score_antitone_in_rates_witness :
    (0 : ℚ) ≤ 380 ∧ (0 : ℚ) ≤ 1958 ∧
    calculateCrimeScore (some ⟨380, 1958⟩) ≤ calculateCrimeScore (some ⟨0, 0⟩) :=
  ⟨by norm_num, by norm_num,
    crime_score_antitone_in_rates 0 380 0 1958 (by norm_num) (by norm_num)⟩

/-! ### Claim C10 -/

/-- C10: every sub-score is bounded below by a positive constant — the
rent-ratio sub-score is ≥ 25 (and exactly the default 50 at home price
0), the crime sub-score is ≥ 10, the density sub-score is ≥ 20 — so
every produced composite score is at least 10 and a composite score of 0
is unreachable. -/
theorem subscores_bounded_below_composite_at_least_ten (fd : FMRData)
    (cd : Option CrimeData) (price density : ℚ) (m : InvestmentMetrics)
    (h : calculateInvestmentScore (some fd) cd price density = some m) :
    (price = 0 → calculateFMRScore (resolveThreeBedroomRent fd) price = 50) ∧
    25 ≤ calculateFMRScore (resolveThreeBedroomRent fd) price ∧
    10 ≤ calculateCrimeScore cd ∧
    20 ≤ calculateDensityScore density ∧
    10 ≤ m.score ∧ m.score ≠ 0 := by
  obtain ⟨-, hsc, -, -, -, -, -⟩ := scorer_some_inv fd cd price density m h
  have hf := calculateFMRScore_bounds (resolveThreeBedroomRent fd) price
  have hc := calculateCrimeScore_bounds cd
  have hd := calculateDensityScore_bounds density
  have hts := totalScore_bounds (by linarith [hf.1] : (10:ℚ) ≤ _) hf.2 hc.1 hc.2
    (by linarith [hd.1] : (10:ℚ) ≤ _) hd.2
  refine ⟨?_, hf.1, hc.1, hd.1, by rw [hsc]; exact hts.1, ?_⟩
  · intro h0
    rw [h0]
    simp [calculateFMRScore]
  · rw [hsc]
    intro h0
    rw [h0] at hts
    linarith [hts.1]

/-! ### Solver lemmas -/

theorem finalMetrics_maxPurchasePrice (P : CalcInputs) (b : ℚ) :
    (finalMetrics P b).maxPurchasePrice = b := rfl

/-- With enough fuel for the bracket width, the search result stays inside
the bracket `[low, high]`.  The interval halves exactly each iteration and
the loop stops once its width drops below 1, so fuel `n + 1` suffices
whenever the width is below `2 ^ (n + 1)`. -/
theorem searchLoop_mem (P : CalcInputs) (avail : ℚ) :
    ∀ (n : ℕ) (low high best : ℚ), 0 < low → low < high → high - low < 2 ^ (n + 1) →
      low ≤ searchLoop P avail (n + 1) low high best ∧
        searchLoop P avail (n + 1) low high best ≤ high := by
  intro n
  induction n with
  | zero =>
      intro low high best hpos hlt hlen
      norm_num at hlen
      simp only [searchLoop]
      split_ifs <;> constructor <;> linarith
  | succ n ih =>
      intro low high best hpos hlt hlen
      have hp2 : (2 : ℚ) ^ (n + 1 + 1) = 2 ^ (n + 1) * 2 := pow_succ 2 (n + 1)
      rw [searchLoop]
      split_ifs with h1 h2 h3 h4
      · constructor <;> linarith
      · constructor <;> linarith
      · have hrec := ih ((low + high) / 2) high ((low + high) / 2)
          (by linarith) (by linarith) (by linarith)
        constructor <;> linarith [hrec.1, hrec.2]
      · constructor <;> linarith
      · have hrec := ih low ((low + high) / 2) best
          hpos (by linarith) (by linarith)
        constructor <;> linarith [hrec.1, hrec.2]

/-- If the target lies strictly between the debt service at the bracket
ends and debt service grows by at most $10 per dollar of price, the
search lands within the $10 tolerance. -/
theorem searchLoop_tolerance (P : CalcInputs) (avail : ℚ)
    (hLip : ∀ a b : ℚ, a ≤ b → debtService P b - debtService P a ≤ 10 * (b - a)) :
    ∀ (n : ℕ) (low high best : ℚ), low < high → high - low < 2 ^ (n + 1) →
      debtService P low < avail → avail ≤ debtService P high →
      jsAbs (debtService P (searchLoop P avail (n + 1) low high best) - avail) < 10 := by
  intro n
  induction n with
  | zero =>
      intro low high best hlt hlen hdlo hdhi
      norm_num at hlen
      simp only [searchLoop]
      split_ifs with h1 h2 h3 h4
      · exact h1
      · have hq := hLip ((low + high) / 2) high (by linarith)
        simp only [jsAbs]
        rw [if_pos (by linarith)]
        linarith
      · linarith
      · have hq := hLip low ((low + high) / 2) (by linarith)
        push_neg at h2
        simp only [jsAbs]
        rw [if_pos (by linarith)]
        linarith
      · linarith
  | succ n ih =>
      intro low high best hlt hlen hdlo hdhi
      have hp2 : (2 : ℚ) ^ (n + 1 + 1) = 2 ^ (n + 1) * 2 := pow_succ 2 (n + 1)
      rw [searchLoop]
      split_ifs with h1 h2 h3 h4
      · exact h1
      · have hq := hLip ((low + high) / 2) high (by linarith)
        simp only [jsAbs]
        rw [if_pos (by linarith)]
        linarith
      · exact ih ((low + high) / 2) high ((low + high) / 2)
          (by linarith) (by linarith) h2 hdhi
      · have hq := hLip low ((low + high) / 2) (by linarith)
        push_neg at h2
        simp only [jsAbs]
        rw [if_pos (by linarith)]
        linarith
      · push_neg at h2
        exact ih low ((low + high) / 2) best (by linarith) (by linarith) hdlo h2

/-! ### Claim C2 -/

/-- C2: the solver's maximum price is always ≥ 0; it is 0 exactly when the
available-for-debt-service amount is ≤ 0; in that infeasible case the
reported mortgage is 0, the total monthly expenses equal the fixed
operating costs, and the cash-on-cash return and cap rate are 0; for
every feasible input the price is strictly positive. -/
theorem solver_price_nonneg_zero_iff_infeasible (P : CalcInputs) :
    0 ≤ (calculateMaxPrice P).maxPurchasePrice ∧
    ((calculateMaxPrice P).maxPurchasePrice = 0 ↔ availableForDebtService P ≤ 0) ∧
    (availableForDebtService P ≤ 0 →
      (calculateMaxPrice P).monthlyMortgage = 0 ∧
      (calculateMaxPrice P).totalMonthlyExpenses = fixedOperatingCosts P ∧
      (calculateMaxPrice P).cashOnCashReturn = 0 ∧
      (calculateMaxPrice P).capRate = 0) ∧
    (0 < availableForDebtService P → 0 < (calculateMaxPrice P).maxPurchasePrice) := by
  by_cases h : availableForDebtService P ≤ 0
  · unfold calculateMaxPrice
    rw [if_pos h]
    exact ⟨le_refl 0, iff_of_true rfl h, fun _ => ⟨rfl, rfl, rfl, rfl⟩,
      fun h0 => absurd h (not_le.mpr h0)⟩
  · have hmem := searchLoop_mem P (availableForDebtService P) 99 1000 2000000 0
      (by norm_num) (by norm_num) (by norm_num)
    norm_num at hmem
    unfold calculateMaxPrice
    rw [if_neg h]
    rw [finalMetrics_maxPurchasePrice]
    refine ⟨by linarith [hmem.1], iff_of_false (by linarith [hmem.1]) h,
      fun hh => absurd hh h, fun _ => by linarith [hmem.1]⟩

/-- Witness for C2: an infeasible and a feasible concrete input. -/
theorem solver_price_nonneg_zero_iff_infeasible_witness :
    availableForDebtService solverInfeasible ≤ 0 ∧
    (calculateMaxPrice solverInfeasible).maxPurchasePrice = 0 ∧
    (calculateMaxPrice solverInfeasible).monthlyMortgage = 0 ∧
    (calculateMaxPrice solverInfeasible).totalMonthlyExpenses =
      fixedOperatingCosts solverInfeasible ∧
    0 < availableForDebtService solverFeasible ∧
    0 < (calculateMaxPrice solverFeasible).maxPurchasePrice := by
  have hI : availableForDebtService solverInfeasible ≤ 0 := by
    norm_num [availableForDebtService, effectiveMonthlyIncome, fixedOperatingCosts,
      vacancyCost, maintenanceCost, pmCost, solverInfeasible]
  have hF : 0 < availableForDebtService solverFeasible := by
    norm_num [availableForDebtService, effectiveMonthlyIncome, fixedOperatingCosts,
      vacancyCost, maintenanceCost, pmCost, solverFeasible]
  have h1 := solver_price_nonneg_zero_iff_infeasible solverInfeasible
  have h2 := solver_price_nonneg_zero_iff_infeasible solverFeasible
  exact ⟨hI, h1.2.1.mpr hI, (h1.2.2.1 hI).1, (h1.2.2.1 hI).2.1, hF, h2.2.2.2 hF⟩

/-! ### Claim C3 -/

/-- C3 (amended): if the available-for-debt-service amount is positive and
lies within the search bracket (debt service at $1,000 is below it and
debt service at $2,000,000 at or above it), and debt service grows at
most $10 per dollar of price, then recomputing the debt service at the
returned price lands within $10 of the available amount.  Outside the
bracket the returned endpoint can miss by more. -/
theorem solver_roundtrip_within_tolerance (P : CalcInputs)
    (h0 : 0 < availableForDebtService P)
    (h1 : debtService P 1000 < availableForDebtService P)
    (h2 : availableForDebtService P ≤ debtService P 2000000)
    (hLip : ∀ a b : ℚ, a ≤ b → debtService P b - debtService P a ≤ 10 * (b - a)) :
    jsAbs (debtService P (calculateMaxPrice P).maxPurchasePrice -
      availableForDebtService P) < 10 := by
  unfold calculateMaxPrice
  rw [if_neg (not_le.mpr h0), finalMetrics_maxPurchasePrice]
  have ht := searchLoop_tolerance P (availableForDebtService P) hLip 99 1000 2000000 0
    (by norm_num) (by norm_num) h1 h2
  norm_num at ht
  exact ht

/-- C3 counterexample: for `solverHugeRent` the available amount (10^6) is
feasible, but every price in the bracket has debt service at most
2000000/360 ≈ 5556, so the returned price misses the target by far more
than $10. -/
theorem solver_roundtrip_fails_outside_bracket :
    0 < availableForDebtService solverHugeRent ∧
    ¬ jsAbs (debtService solverHugeRent
        (calculateMaxPrice solverHugeRent).maxPurchasePrice -
        availableForDebtService solverHugeRent) < 10 := by
  have havail : availableForDebtService solverHugeRent = 1000000 := by
    norm_num [availableForDebtService, effectiveMonthlyIncome, fixedOperatingCosts,
      vacancyCost, maintenanceCost, pmCost, solverHugeRent]
  have hmem := searchLoop_mem solverHugeRent (availableForDebtService solverHugeRent)
    99 1000 2000000 0 (by norm_num) (by norm_num) (by norm_num)
  norm_num at hmem
  rw [havail] at hmem
  have hds : ∀ x : ℚ, debtService solverHugeRent x = x / 360 := fun x => by
    norm_num [debtService, monthlyMortgagePayment, monthlyPropertyTax, solverHugeRent]
  refine ⟨by rw [havail]; norm_num, ?_⟩
  unfold calculateMaxPrice
  rw [if_neg (by rw [havail]; norm_num), finalMetrics_maxPurchasePrice, havail, hds]
  simp only [jsAbs]
  rw [if_pos (by linarith [hmem.2])]
  rw [not_lt]
  linarith [hmem.2]

/-- Witness for the amended C3 at the degenerate feasible input, where the
debt service at price p is exactly p/360. -/
theorem solver_roundtrip_within_tolerance_witness :
    jsAbs (debtService solverFeasible (calculateMaxPrice solverFeasible).maxPurchasePrice -
      availableForDebtService solverFeasible) < 10 := by
  have havail : availableForDebtService solverFeasible = 1000 := by
    norm_num [availableForDebtService, effectiveMonthlyIncome, fixedOperatingCosts,
      vacancyCost, maintenanceCost, pmCost, solverFeasible]
  have hds : ∀ x : ℚ, debtService solverFeasible x = x / 360 := fun x => by
    norm_num [debtService, monthlyMortgagePayment, monthlyPropertyTax, solverFeasible]
  refine solver_roundtrip_within_tolerance solverFeasible ?_ ?_ ?_ ?_
  · rw [havail]; norm_num
  · rw [hds, havail]; norm_num
  · rw [hds, havail]; norm_num
  · intro a b hab
    rw [hds, hds]
    linarith

/-! ### Claim C6 -/

/-- C6: the solver's degenerate inputs have exact fallbacks: with interest
rate 0 the mortgage is straight-line loanAmount/360; with down payment 0%
the reported cash-on-cash return is 0; with price 0 the reported cap rate
is 0 — no division by zero occurs. -/
theorem solver_degenerate_fallbacks (P : CalcInputs) (price : ℚ) :
    (P.interestRate = 0 →
      monthlyMortgagePayment P price = price * (1 - P.downPaymentPercent / 100) / 360) ∧
    (P.downPaymentPercent = 0 → (calculateMaxPrice P).cashOnCashReturn = 0) ∧
    (finalMetrics P 0).capRate = 0 := by
  refine ⟨?_, ?_, ?_⟩
  · intro h
    unfold monthlyMortgagePayment
    rw [h]
    norm_num
  · intro h
    unfold calculateMaxPrice
    split_ifs with hif
    · rfl
    · unfold finalMetrics
      dsimp only
      rw [h]
      norm_num
  · unfold finalMetrics
    dsimp only
    norm_num

/-- Witness for C6 at the degenerate feasible input (interest 0, down
payment 0). -/
theorem solver_degenerate_fallbacks_witness :
    monthlyMortgagePayment solverFeasible 250000 =
      250000 * (1 - solverFeasible.downPaymentPercent / 100) / 360 ∧
    (calculateMaxPrice solverFeasible).cashOnCashReturn = 0 ∧
    (finalMetrics solverFeasible 0).capRate = 0 :=
  ⟨(solver_degenerate_fallbacks solverFeasible 250000).1 rfl,
    (solver_degenerate_fallbacks solverFeasible 250000).2.1 rfl,
    (solver_degenerate_fallbacks solverFeasible 250000).2.2⟩

/-- Witness for C10 at the concrete sample input. -/
theorem subscores_bounded_below_witness :
    ((100000 : ℚ) = 0 → calculateFMRScore (resolveThreeBedroomRent fmrSample) 100000 = 50) ∧
    25 ≤ calculateFMRScore (resolveThreeBedroomRent fmrSample) 100000 ∧
    10 ≤ calculateCrimeScore (some crimeSampleSafe) ∧
    20 ≤ calculateDensityScore 5000 ∧
    10 ≤ metricsSample.score ∧ metricsSample.score ≠ 0 :=
  subscores_bounded_below_composite_at_least_ten fmrSample (some crimeSampleSafe)
    100000 5000 metricsSample scorer_sample_eval

end RealEstate
